import Mathlib

/-
Verification development for the file-backup reconciliation engine
(src/main.rs).  The Rust source is shallowly embedded: pure string and
list manipulation is translated into executable Lean functions; the
external world (zfs, restic, rsync, the filesystem, and the SQLite
history store) is modelled by explicit world records whose fields give
the outcome of each external call, and the engine functions are
translated into pure functions from a world, a configuration, and the
current history-store contents to a result, an event trace, the new
store contents, and the reconciliation mode that was selected.
-/

namespace FileBackup

/-! ## String helpers, mirroring Rust std string operations used by the source -/

/-- Core of single-character splitting: returns the first piece of the
split of the character list and the list of remaining pieces.  Mirrors
Rust `str::split(c)`: n separators yield n+1 pieces. -/
def splitCharCore (c : Char) : List Char → List Char × List (List Char)
  | [] => ([], [])
  | x :: xs =>
    let r := splitCharCore c xs
    if x = c then ([], r.1 :: r.2) else (x :: r.1, r.2)

/-- Rust `s.split(c).collect::<Vec<_>>()`. -/
def splitChar (c : Char) (s : String) : List String :=
  ((splitCharCore c s.toList).1 :: (splitCharCore c s.toList).2).map String.mk

/-- Fuel-driven substring splitting on character lists; fuel is an upper
bound on the number of consumed characters, so with fuel = length + 1 it
implements Rust `str::split(sep)` for a non-empty separator. -/
def splitSubAux (sep : List Char) : Nat → List Char → List Char → List (List Char)
  | 0, rest, acc => [acc.reverse ++ rest]
  | _ + 1, [], acc => [acc.reverse]
  | fuel + 1, x :: xs, acc =>
    if sep.isPrefixOf (x :: xs) then
      acc.reverse :: splitSubAux sep fuel (List.drop sep.length (x :: xs)) []
    else
      splitSubAux sep fuel xs (x :: acc)

/-- Rust `s.split(sep).collect::<Vec<_>>()` for a substring separator. -/
def splitSub (sep : String) (s : String) : List String :=
  (splitSubAux sep.toList (s.toList.length + 1) s.toList []).map String.mk

/-- Rust `pre.strip_prefix` on character lists: `some` of the remainder
when `p` is a leading segment of the list, `none` otherwise. -/
def stripPre : List Char → List Char → Option (List Char)
  | [], s => some s
  | _ :: _, [] => none
  | p :: ps, x :: xs => if p = x then stripPre ps xs else none

/-- Rust `s.ends_with(c)`. -/
def endsWithChar (c : Char) (s : String) : Bool :=
  match s.toList.getLast? with
  | some x => x = c
  | none => false

/-- Source `strip_mountpoint_prefix`: strip the mountpoint, then a single
leading slash; if either strip fails the path is returned unchanged. -/
def strip_mountpoint (file_path mountpoint : String) : String :=
  match stripPre mountpoint.toList file_path.toList with
  | some s =>
    match s with
    | '/' :: rest => String.mk rest
    | _ => file_path
  | none => file_path

/-! ## Change-list parsing and plan partitioning (source lines 564-698) -/

/-- Source `parse_zfs_diff_line`: split on a tab; with at least two
fields, the first character of field 0 and the whole of field 1. -/
def parse_zfs_diff_line (line : String) : Option (Char × String) :=
  match splitChar '\t' line with
  | p0 :: p1 :: _ =>
    match p0.toList with
    | c :: _ => some (c, p1)
    | [] => none
  | _ => none

/-- Rust `file_path.split(" -> ").nth(1)`, used for rename records. -/
def renameDest (file_path : String) : Option String :=
  ((splitSub " -> " file_path).drop 1).head?

/-- Source `extract_files_for_sync`: added/modified paths and rename
destinations, stripped of the mountpoint, discarding empty paths and
paths ending in a slash. -/
def extract_files_for_sync : List String → String → List String
  | [], _ => []
  | change :: rest, mountpoint =>
    let tail := extract_files_for_sync rest mountpoint
    match parse_zfs_diff_line change with
    | some (change_type, file_path) =>
      if change_type = '+' ∨ change_type = 'M' then
        let relative_path := strip_mountpoint file_path mountpoint
        if relative_path ≠ "" ∧ ¬ endsWithChar '/' relative_path then
          relative_path :: tail
        else tail
      else if change_type = 'R' then
        match renameDest file_path with
        | some new_path =>
          let relative_path := strip_mountpoint new_path mountpoint
          if relative_path ≠ "" ∧ ¬ endsWithChar '/' relative_path then
            relative_path :: tail
          else tail
        | none => tail
      else tail
    | none => tail

/-- Source `extract_files_for_deletion`: removed paths, stripped of the
mountpoint, discarding empty paths. -/
def extract_files_for_deletion : List String → String → List String
  | [], _ => []
  | change :: rest, mountpoint =>
    let tail := extract_files_for_deletion rest mountpoint
    match parse_zfs_diff_line change with
    | some (change_type, file_path) =>
      if change_type = '-' then
        let relative_path := strip_mountpoint file_path mountpoint
        if relative_path ≠ "" then relative_path :: tail else tail
      else tail
    | none => tail

/-! ## History store (SQLite `backup_history` table, source lines 113-186, 457-472) -/

/-- One row of the `backup_history` table (the timestamp column is
immaterial to every claim and is modelled by the row's position: rows
are kept in insertion order and queried most-recent-first). -/
structure BackupRecord where
  backup_type : String
  source_name : String
  snapshot_name : String
  target_dir : String
deriving DecidableEq

/-- The UNIQUE(backup_type, source_name, snapshot_name) key of the table. -/
def sameKey (a b : BackupRecord) : Bool :=
  a.backup_type == b.backup_type && a.source_name == b.source_name &&
    a.snapshot_name == b.snapshot_name

/-- The plain `INSERT INTO backup_history ...` executed by the source:
SQLite rejects a row whose UNIQUE key is already present with a
constraint error; otherwise the row is appended. -/
def insert_backup_history (db : List BackupRecord) (r : BackupRecord) :
    Except String (List BackupRecord) :=
  if db.any (fun x => sameKey x r) then
    .error "UNIQUE constraint failed: backup_history.backup_type, backup_history.source_name, backup_history.snapshot_name"
  else
    .ok (db ++ [r])

/-- Source `record_successful_backup`. -/
def record_successful_backup (db : List BackupRecord)
    (backup_type source_name snapshot_name target_dir : String) :
    Except String (List BackupRecord) :=
  match insert_backup_history db ⟨backup_type, source_name, snapshot_name, target_dir⟩ with
  | .error e => .error ("Failed to record backup in database: " ++ e)
  | .ok db2 => .ok db2

/-- Source `get_last_backed_up_snapshot` (the SELECT already succeeded
and returned `rows`, the (snapshot_name, backup_timestamp) pairs in
most-recent-first order; `snapExists` is the outcome of the
`snapshot_exists` subprocess call).  Returns the chosen baseline and the
trace of snapshot names whose existence was checked, in order.  The walk
continues both on a clean `false` and on a failing check (the source
logs a warning and continues). -/
def get_last_backed_up_snapshot (snapExists : String → Except String Bool) :
    List (String × String) → Option String × List String
  | [] => (none, [])
  | (snapshot_name, _) :: rest =>
    match snapExists snapshot_name with
    | .ok true => (some snapshot_name, [snapshot_name])
    | .ok false =>
      let r := get_last_backed_up_snapshot snapExists rest
      (r.1, snapshot_name :: r.2)
    | .error _ =>
      let r := get_last_backed_up_snapshot snapExists rest
      (r.1, snapshot_name :: r.2)

/-! ## Target-side deletion (source `delete_files_from_target`, lines 700-745) -/

/-- What the target filesystem says a path is. -/
inductive PathKind where
  | dir
  | file
  | absent
deriving DecidableEq

/-- Rust `PathBuf::join`: an absolute right operand replaces the base. -/
def pathJoin (dir f : String) : String :=
  match f.toList with
  | '/' :: _ => f
  | _ => dir ++ "/" ++ f

/-- Result of the bulk deletion: outcome, deleted count, error count and
the list of entries attempted, in order. -/
structure DeleteResult where
  res : Except String Unit
  deleted : Nat
  errors : Nat
  trace : List String

/-- The per-file loop of `delete_files_from_target`: directories go to
`remove_dir_all`, files to `remove_file`, an absent path is counted as
already deleted.  Returns (deleted count, error count, attempted list). -/
def delete_loop (fsKind : String → PathKind)
    (fsRemoveDir fsRemoveFile : String → Except String Unit)
    (target_dir : String) : List String → Nat × Nat × List String
  | [] => (0, 0, [])
  | f :: rest =>
    let target_path := pathJoin target_dir f
    let ok1 : Bool :=
      match fsKind target_path with
      | .dir =>
        match fsRemoveDir target_path with
        | .ok _ => true
        | .error _ => false
      | .file =>
        match fsRemoveFile target_path with
        | .ok _ => true
        | .error _ => false
      | .absent => true
    let r := delete_loop fsKind fsRemoveDir fsRemoveFile target_dir rest
    if ok1 then (r.1 + 1, r.2.1, f :: r.2.2) else (r.1, r.2.1 + 1, f :: r.2.2)

/-- Source `delete_files_from_target`: empty list is an immediate Ok;
otherwise every entry is attempted and the call fails iff at least one
deletion failed. -/
def delete_files_from_target (fsKind : String → PathKind)
    (fsRemoveDir fsRemoveFile : String → Except String Unit)
    (target_dir : String) (files : List String) : DeleteResult :=
  if files.isEmpty then ⟨.ok (), 0, 0, []⟩
  else
    let r := delete_loop fsKind fsRemoveDir fsRemoveFile target_dir files
    if r.2.1 > 0 then
      ⟨.error (toString r.2.1 ++ " item(s) failed to delete"), r.1, r.2.1, r.2.2⟩
    else
      ⟨.ok (), r.1, r.2.1, r.2.2⟩

/-- Whether the bulk deletion fails on file `f`: an absent path never
fails; an existing one fails exactly when the respective remove call
fails. -/
def deleteFails (fsKind : String → PathKind)
    (fsRemoveDir fsRemoveFile : String → Except String Unit)
    (target_dir f : String) : Bool :=
  match fsKind (pathJoin target_dir f) with
  | .dir =>
    match fsRemoveDir (pathJoin target_dir f) with
    | .ok _ => false
    | .error _ => true
  | .file =>
    match fsRemoveFile (pathJoin target_dir f) with
    | .ok _ => false
    | .error _ => true
  | .absent => false

/-! ## Snapshot-root resolution (source `get_snapshot_mountpoint`, lines 505-525) -/

/-- Source `get_snapshot_mountpoint`: parse `<dataset>@<label>` (exactly
one `@`), look up the dataset's mountpoint (`getMp` is the outcome of
the `zfs get mountpoint` call), and append the hidden `.zfs/snapshot`
directory and the label. -/
def get_snapshot_mountpoint (getMp : String → Except String String)
    (snapshot : String) : Except String String :=
  match splitChar '@' snapshot with
  | [dataset, snapshot_name] =>
    match getMp dataset with
    | .error e => .error e
    | .ok mountpoint => .ok (mountpoint ++ "/.zfs/snapshot/" ++ snapshot_name)
  | _ => .error ("Invalid snapshot name format: " ++ snapshot)

/-! ## Observable events of one reconciliation run -/

/-- The externally visible actions a run performs, in order.  `record`
is emitted when a row is successfully inserted; `mountAcquired` when a
restic mount reached readiness; `unmount` when the RAII guard's drop
runs `fusermount -u`; `mountKilled` when a mount that never became ready
is killed. -/
inductive Event where
  | checkExists (snapshot : String)
  | deletePath (path : String)
  | rsyncFull (src tgt : String)
  | rsyncList (src tgt : String) (files : List String)
  | record (r : BackupRecord)
  | mountAcquired (mount_point : String)
  | mountKilled (mount_point : String)
  | unmount (mount_point : String)
deriving DecidableEq

/-- The reconciliation mode the engine decides on once it knows the
baseline and the head snapshot. -/
inductive Mode where
  | full (head : String)
  | skip (head : String)
  | incremental (baseline head : String)
deriving DecidableEq

/-- Mode selection as the spec states it: no baseline means full,
baseline equal to head means skip, otherwise incremental. -/
def determine_mode (baseline : Option String) (head : String) : Mode :=
  match baseline with
  | none => .full head
  | some last => if last = head then .skip head else .incremental last head

/-- Result of one reconciliation run: outcome, event trace, new history
store contents, and the mode that was selected (`none` when the run
failed before mode selection). -/
structure RunResult where
  result : Except String Unit
  events : List Event
  db : List BackupRecord
  mode : Option Mode

/-- Rust `file.strip_prefix('/')` as used when writing the rsync
files-from list. -/
def stripLeadSlash (f : String) : String :=
  match f.toList with
  | '/' :: rest => String.mk rest
  | _ => f

/-- Source `run_rsync_with_file_list`: empty list is an immediate Ok
with no rsync invocation; otherwise one rsync call on the list with
leading slashes stripped (the temp-file plumbing always succeeds in
this model).  `rsyncFiles` is the outcome of the rsync subprocess. -/
def run_rsync_with_file_list
    (rsyncFiles : String → String → List String → Except String Unit)
    (source_path target_dir : String) (files : List String) :
    Except String Unit × List Event :=
  if files.isEmpty then (.ok (), [])
  else
    match rsyncFiles source_path target_dir (files.map stripLeadSlash) with
    | .error e =>
      (.error ("rsync failed: " ++ e),
        [.rsyncList source_path target_dir (files.map stripLeadSlash)])
    | .ok _ =>
      (.ok (), [.rsyncList source_path target_dir (files.map stripLeadSlash)])

/-! ## The dataset reconciliation (source `backup_dataset`, lines 349-454) -/

structure DatasetConfig where
  name : String
  target_dir : String

/-- Outcomes of every external call `backup_dataset` makes, one field
per collaborator. -/
structure DatasetWorld where
  targetCheck : Except String Unit
  mountedCheck : Except String Bool
  dbQuery : Except String (List (String × String))
  snapExists : String → Except String Bool
  latest : Except String (Option String)
  datasetMountpoint : String → Except String String
  diff : String → String → Except String (List String)
  rsync : String → String → Except String Unit
  rsyncFiles : String → String → List String → Except String Unit
  fsKind : String → PathKind
  fsRemoveDir : String → Except String Unit
  fsRemoveFile : String → Except String Unit

/-- The `last_backup` binding of `backup_dataset`: a database error is
downgraded to `none` with a warning. -/
def dataset_last (w : DatasetWorld) : Option String :=
  match w.dbQuery with
  | .error _ => none
  | .ok rows => (get_last_backed_up_snapshot w.snapExists rows).1

/-- The existence-check events emitted while computing `last_backup`. -/
def dataset_ev0 (w : DatasetWorld) : List Event :=
  match w.dbQuery with
  | .error _ => []
  | .ok rows => (get_last_backed_up_snapshot w.snapExists rows).2.map Event.checkExists

/-- The deletion step of the incremental arm: skipped when no files need
deletion (mirroring the `if !files_to_delete.is_empty()` guard in the
source). -/
def dataset_delete_step (w : DatasetWorld) (cfg : DatasetConfig)
    (changes : List String) (dataset_mountpoint : String) : DeleteResult :=
  if (extract_files_for_deletion changes dataset_mountpoint).isEmpty then
    ⟨.ok (), 0, 0, []⟩
  else
    delete_files_from_target w.fsKind w.fsRemoveDir w.fsRemoveFile cfg.target_dir
      (extract_files_for_deletion changes dataset_mountpoint)

/-- Source `backup_dataset`, translated control path by control path.
Note that in the source the incremental arm never calls
`record_successful_backup` even though it prints that the incremental
backup was recorded (see the C1 theorem). -/
def backup_dataset (w : DatasetWorld) (cfg : DatasetConfig)
    (db : List BackupRecord) : RunResult :=
  match w.targetCheck with
  | .error e => ⟨.error e, [], db, none⟩
  | .ok _ =>
  match w.mountedCheck with
  | .error e => ⟨.error e, [], db, none⟩
  | .ok false => ⟨.error ("Dataset '" ++ cfg.name ++ "' is NOT mounted"), [], db, none⟩
  | .ok true =>
  match w.latest with
  | .error e => ⟨.error e, dataset_ev0 w, db, none⟩
  | .ok none =>
    ⟨.error ("No snapshots found for dataset '" ++ cfg.name ++ "'"), dataset_ev0 w, db, none⟩
  | .ok (some latest_snapshot) =>
  match dataset_last w with
  | none =>
    -- full backup
    match get_snapshot_mountpoint w.datasetMountpoint latest_snapshot with
    | .error e => ⟨.error e, dataset_ev0 w, db, some (.full latest_snapshot)⟩
    | .ok snapshot_mountpoint =>
      match w.rsync (snapshot_mountpoint ++ "/") cfg.target_dir with
      | .error e =>
        ⟨.error ("rsync failed: " ++ e),
          dataset_ev0 w ++ [.rsyncFull (snapshot_mountpoint ++ "/") cfg.target_dir],
          db, some (.full latest_snapshot)⟩
      | .ok _ =>
        match record_successful_backup db "dataset" cfg.name latest_snapshot cfg.target_dir with
        | .error e =>
          ⟨.error e,
            dataset_ev0 w ++ [.rsyncFull (snapshot_mountpoint ++ "/") cfg.target_dir],
            db, some (.full latest_snapshot)⟩
        | .ok db2 =>
          ⟨.ok (),
            dataset_ev0 w ++
              [.rsyncFull (snapshot_mountpoint ++ "/") cfg.target_dir,
               .record ⟨"dataset", cfg.name, latest_snapshot, cfg.target_dir⟩],
            db2, some (.full latest_snapshot)⟩
  | some last_snap =>
    if last_snap = latest_snapshot then
      ⟨.ok (), dataset_ev0 w, db, some (.skip latest_snapshot)⟩
    else
      match w.diff last_snap latest_snapshot with
      | .error e =>
        ⟨.error e, dataset_ev0 w, db, some (.incremental last_snap latest_snapshot)⟩
      | .ok changes =>
        if changes.isEmpty then
          ⟨.ok (), dataset_ev0 w, db, some (.incremental last_snap latest_snapshot)⟩
        else
          match w.datasetMountpoint cfg.name with
          | .error e =>
            ⟨.error e, dataset_ev0 w, db, some (.incremental last_snap latest_snapshot)⟩
          | .ok dataset_mountpoint =>
            match (dataset_delete_step w cfg changes dataset_mountpoint).res with
            | .error e =>
              ⟨.error e,
                dataset_ev0 w ++
                  (dataset_delete_step w cfg changes dataset_mountpoint).trace.map
                    Event.deletePath,
                db, some (.incremental last_snap latest_snapshot)⟩
            | .ok _ =>
              if (extract_files_for_sync changes dataset_mountpoint).isEmpty then
                ⟨.ok (),
                  dataset_ev0 w ++
                    (dataset_delete_step w cfg changes dataset_mountpoint).trace.map
                      Event.deletePath,
                  db, some (.incremental last_snap latest_snapshot)⟩
              else
                match get_snapshot_mountpoint w.datasetMountpoint latest_snapshot with
                | .error e =>
                  ⟨.error e,
                    dataset_ev0 w ++
                      (dataset_delete_step w cfg changes dataset_mountpoint).trace.map
                        Event.deletePath,
                    db, some (.incremental last_snap latest_snapshot)⟩
                | .ok snapshot_mountpoint =>
                  match
                    (run_rsync_with_file_list w.rsyncFiles (snapshot_mountpoint ++ "/")
                      cfg.target_dir
                      (extract_files_for_sync changes dataset_mountpoint)).1
                  with
                  | .error e =>
                    ⟨.error e,
                      dataset_ev0 w ++
                        (dataset_delete_step w cfg changes dataset_mountpoint).trace.map
                          Event.deletePath ++
                        (run_rsync_with_file_list w.rsyncFiles (snapshot_mountpoint ++ "/")
                          cfg.target_dir
                          (extract_files_for_sync changes dataset_mountpoint)).2,
                      db, some (.incremental last_snap latest_snapshot)⟩
                  | .ok _ =>
                    -- the source prints "Incremental backup recorded successfully"
                    -- here but performs no record_successful_backup call
                    ⟨.ok (),
                      dataset_ev0 w ++
                        (dataset_delete_step w cfg changes dataset_mountpoint).trace.map
                          Event.deletePath ++
                        (run_rsync_with_file_list w.rsyncFiles (snapshot_mountpoint ++ "/")
                          cfg.target_dir
                          (extract_files_for_sync changes dataset_mountpoint)).2,
                      db, some (.incremental last_snap latest_snapshot)⟩

/-! ## The restic reconciliation (source `backup_restic`, lines 784-927) -/

structure ResticConfig where
  repository : String
  target_dir : String

/-- Outcomes of every external call `backup_restic` makes.  `mountSpawn`
and `mountReady` are keyed by (snapshot id, mount point): spawning the
`restic mount` child, and the readiness probe on
`mount_point/snapshots`.  `resticDiff` is the outcome of
`get_restic_diff_via_rsync` (a pair: added/modified paths, deleted
paths). -/
structure ResticWorld where
  targetCheck : Except String Unit
  dbQuery : Except String (List (String × String))
  snapExists : String → Except String Bool
  latest : Except String (Option String)
  createDir : String → Except String Unit
  mountSpawn : String → String → Except String Unit
  mountReady : String → String → Bool
  rsync : String → String → Except String Unit
  rsyncFiles : String → String → List String → Except String Unit
  resticDiff : Except String (List String × List String)

/-- Source `mount_restic_snapshot`: spawn the mount child; if the
readiness marker is absent, kill the child and fail; otherwise the guard
is acquired.  The returned events are what the call itself emits; the
matching `unmount` is emitted by the caller where the Rust guard is
dropped. -/
def mount_restic_snapshot (mountSpawn : String → String → Except String Unit)
    (mountReady : String → String → Bool)
    (snapshot_id mount_point : String) : Except String Unit × List Event :=
  match mountSpawn snapshot_id mount_point with
  | .error e => (.error ("Failed to start restic mount: " ++ e), [])
  | .ok _ =>
    if mountReady snapshot_id mount_point then
      (.ok (), [.mountAcquired mount_point])
    else
      (.error "Restic mount failed or not ready", [.mountKilled mount_point])

/-- The sync step of the restic incremental arm: the source guards the
rsync behind `if changes.is_empty()`, syncing the added/modified
component of the diff. -/
def restic_sync_step (w : ResticWorld) (cfg : ResticConfig)
    (changes : List String × List String) : Except String Unit × List Event :=
  if changes.1.isEmpty then (.ok (), [])
  else
    run_rsync_with_file_list w.rsyncFiles "/tmp/restic-mount-new/" cfg.target_dir
      changes.1

/-- The `last_backup` binding of `backup_restic`: a database error is
downgraded to `none` with a warning. -/
def restic_last (w : ResticWorld) : Option String :=
  match w.dbQuery with
  | .error _ => none
  | .ok rows => (get_last_backed_up_snapshot w.snapExists rows).1

/-- The existence-check events emitted while computing `last_backup`. -/
def restic_ev0 (w : ResticWorld) : List Event :=
  match w.dbQuery with
  | .error _ => []
  | .ok rows => (get_last_backed_up_snapshot w.snapExists rows).2.map Event.checkExists

/-- Source `backup_restic`, translated control path by control path.
Rust drop semantics are made explicit: every exit path of a scope that
holds a mount guard emits that guard's `unmount`, guards dropping in
reverse acquisition order.  In the incremental arm the source binds the
pair returned by `get_restic_diff_via_rsync` to `changes` and then uses
it as the list of files to sync; per the function's own comment
("Deletions would need to be handled separately") that list is the
added/modified component, which is how the pair is consumed here. -/
def backup_restic (w : ResticWorld) (cfg : ResticConfig)
    (db : List BackupRecord) : RunResult :=
  match w.targetCheck with
  | .error e => ⟨.error e, [], db, none⟩
  | .ok _ =>
  match w.latest with
  | .error e => ⟨.error e, restic_ev0 w, db, none⟩
  | .ok none =>
    ⟨.error ("No snapshots found in restic repository '" ++ cfg.repository ++ "'"),
      restic_ev0 w, db, none⟩
  | .ok (some latest_snapshot) =>
  match restic_last w with
  | none =>
    -- full copy from a mounted snapshot
    match w.createDir "/tmp/restic-mount-latest" with
    | .error e =>
      ⟨.error ("Failed to create mount point: " ++ e), restic_ev0 w, db,
        some (.full latest_snapshot)⟩
    | .ok _ =>
      match (mount_restic_snapshot w.mountSpawn w.mountReady latest_snapshot
          "/tmp/restic-mount-latest").1 with
      | .error e =>
        ⟨.error e,
          restic_ev0 w ++
            (mount_restic_snapshot w.mountSpawn w.mountReady latest_snapshot
              "/tmp/restic-mount-latest").2,
          db, some (.full latest_snapshot)⟩
      | .ok _ =>
        match w.rsync "/tmp/restic-mount-latest/" cfg.target_dir with
        | .error e =>
          ⟨.error ("rsync failed: " ++ e),
            restic_ev0 w ++
              (mount_restic_snapshot w.mountSpawn w.mountReady latest_snapshot
                "/tmp/restic-mount-latest").2 ++
              [.rsyncFull "/tmp/restic-mount-latest/" cfg.target_dir,
               .unmount "/tmp/restic-mount-latest"],
            db, some (.full latest_snapshot)⟩
        | .ok _ =>
          match record_successful_backup db "restic" cfg.repository latest_snapshot
              cfg.target_dir with
          | .error e =>
            ⟨.error e,
              restic_ev0 w ++
                (mount_restic_snapshot w.mountSpawn w.mountReady latest_snapshot
                  "/tmp/restic-mount-latest").2 ++
                [.rsyncFull "/tmp/restic-mount-latest/" cfg.target_dir,
                 .unmount "/tmp/restic-mount-latest"],
              db, some (.full latest_snapshot)⟩
          | .ok db2 =>
            ⟨.ok (),
              restic_ev0 w ++
                (mount_restic_snapshot w.mountSpawn w.mountReady latest_snapshot
                  "/tmp/restic-mount-latest").2 ++
                [.rsyncFull "/tmp/restic-mount-latest/" cfg.target_dir,
                 .record ⟨"restic", cfg.repository, latest_snapshot, cfg.target_dir⟩,
                 .unmount "/tmp/restic-mount-latest"],
              db2, some (.full latest_snapshot)⟩
  | some last_snap =>
    if last_snap = latest_snapshot then
      ⟨.ok (), restic_ev0 w, db, some (.skip latest_snapshot)⟩
    else
      match w.createDir "/tmp/restic-mount-old" with
      | .error e =>
        ⟨.error ("Failed to create mount point: " ++ e), restic_ev0 w, db,
          some (.incremental last_snap latest_snapshot)⟩
      | .ok _ =>
      match w.createDir "/tmp/restic-mount-new" with
      | .error e =>
        ⟨.error ("Failed to create mount point: " ++ e), restic_ev0 w, db,
          some (.incremental last_snap latest_snapshot)⟩
      | .ok _ =>
      match (mount_restic_snapshot w.mountSpawn w.mountReady last_snap
          "/tmp/restic-mount-old").1 with
      | .error e =>
        ⟨.error e,
          restic_ev0 w ++
            (mount_restic_snapshot w.mountSpawn w.mountReady last_snap
              "/tmp/restic-mount-old").2,
          db, some (.incremental last_snap latest_snapshot)⟩
      | .ok _ =>
      match (mount_restic_snapshot w.mountSpawn w.mountReady latest_snapshot
          "/tmp/restic-mount-new").1 with
      | .error e =>
        ⟨.error e,
          restic_ev0 w ++
            (mount_restic_snapshot w.mountSpawn w.mountReady last_snap
              "/tmp/restic-mount-old").2 ++
            (mount_restic_snapshot w.mountSpawn w.mountReady latest_snapshot
              "/tmp/restic-mount-new").2 ++
            [.unmount "/tmp/restic-mount-old"],
          db, some (.incremental last_snap latest_snapshot)⟩
      | .ok _ =>
      match w.resticDiff with
      | .error e =>
        ⟨.error e,
          restic_ev0 w ++
            (mount_restic_snapshot w.mountSpawn w.mountReady last_snap
              "/tmp/restic-mount-old").2 ++
            (mount_restic_snapshot w.mountSpawn w.mountReady latest_snapshot
              "/tmp/restic-mount-new").2 ++
            [.unmount "/tmp/restic-mount-new", .unmount "/tmp/restic-mount-old"],
          db, some (.incremental last_snap latest_snapshot)⟩
      | .ok changes =>
        match (restic_sync_step w cfg changes).1 with
        | .error e =>
          ⟨.error e,
            restic_ev0 w ++
              (mount_restic_snapshot w.mountSpawn w.mountReady last_snap
                "/tmp/restic-mount-old").2 ++
              (mount_restic_snapshot w.mountSpawn w.mountReady latest_snapshot
                "/tmp/restic-mount-new").2 ++
              (restic_sync_step w cfg changes).2 ++
              [.unmount "/tmp/restic-mount-new", .unmount "/tmp/restic-mount-old"],
            db, some (.incremental last_snap latest_snapshot)⟩
        | .ok _ =>
          match record_successful_backup db "restic" cfg.repository latest_snapshot
              cfg.target_dir with
          | .error e =>
            ⟨.error e,
              restic_ev0 w ++
                (mount_restic_snapshot w.mountSpawn w.mountReady last_snap
                  "/tmp/restic-mount-old").2 ++
                (mount_restic_snapshot w.mountSpawn w.mountReady latest_snapshot
                  "/tmp/restic-mount-new").2 ++
                (restic_sync_step w cfg changes).2 ++
                [.unmount "/tmp/restic-mount-new", .unmount "/tmp/restic-mount-old"],
              db, some (.incremental last_snap latest_snapshot)⟩
          | .ok db2 =>
            ⟨.ok (),
              restic_ev0 w ++
                (mount_restic_snapshot w.mountSpawn w.mountReady last_snap
                  "/tmp/restic-mount-old").2 ++
                (mount_restic_snapshot w.mountSpawn w.mountReady latest_snapshot
                  "/tmp/restic-mount-new").2 ++
                (restic_sync_step w cfg changes).2 ++
                [.record ⟨"restic", cfg.repository, latest_snapshot, cfg.target_dir⟩,
                 .unmount "/tmp/restic-mount-new", .unmount "/tmp/restic-mount-old"],
              db2, some (.incremental last_snap latest_snapshot)⟩

/-! ## Theorems: bulk deletion (claims C7, C10) -/

theorem delete_step_eq (k : String → PathKind) (rd rf : String → Except String Unit)
    (t f : String) :
    (match k (pathJoin t f) with
      | .dir =>
        match rd (pathJoin t f) with
        | .ok _ => true
        | .error _ => false
      | .file =>
        match rf (pathJoin t f) with
        | .ok _ => true
        | .error _ => false
      | .absent => true) = ! deleteFails k rd rf t f := by
  unfold deleteFails
  cases k (pathJoin t f) with
  | dir => cases rd (pathJoin t f) <;> rfl
  | file => cases rf (pathJoin t f) <;> rfl
  | absent => rfl

theorem delete_loop_spec (k : String → PathKind) (rd rf : String → Except String Unit)
    (t : String) (files : List String) :
    delete_loop k rd rf t files =
      (files.countP (fun f => ! deleteFails k rd rf t f),
       files.countP (fun f => deleteFails k rd rf t f), files) := by
  induction files with
  | nil => rfl
  | cons f rest ih =>
    simp only [delete_loop, delete_step_eq, ih, List.countP_cons]
    cases h : deleteFails k rd rf t f <;> simp [h]

/-- Claim C7: the bulk deletion operation is best-effort, not
all-or-nothing: every entry is attempted (the trace is the whole input
list), each failure is counted, and the operation returns an error if
and only if at least one deletion failed. -/
theorem C7_delete_best_effort (k : String → PathKind)
    (rd rf : String → Except String Unit) (t : String) (files : List String) :
    (delete_files_from_target k rd rf t files).trace = files ∧
    (delete_files_from_target k rd rf t files).errors =
      files.countP (fun f => deleteFails k rd rf t f) ∧
    ((∃ e, (delete_files_from_target k rd rf t files).res = .error e) ↔
      ∃ f ∈ files, deleteFails k rd rf t f = true) := by
  unfold delete_files_from_target
  rw [delete_loop_spec]
  by_cases hempty : files.isEmpty
  · rcases List.isEmpty_iff.mp hempty with rfl
    simp
  · simp only [hempty, if_false]
    by_cases hpos : 0 < files.countP (fun f => deleteFails k rd rf t f)
    · have hgt : files.countP (fun f => deleteFails k rd rf t f) > 0 := hpos
      simp only [hgt, if_true]
      refine ⟨rfl, rfl, ?_⟩
      constructor
      · intro _
        exact List.countP_pos_iff.mp hpos
      · intro _
        exact ⟨_, rfl⟩
    · have hz : ¬ files.countP (fun f => deleteFails k rd rf t f) > 0 := hpos
      simp only [hz, if_false]
      refine ⟨rfl, rfl, ?_⟩
      constructor
      · rintro ⟨e, he⟩
        exact absurd he (by simp)
      · intro hex
        exact absurd (List.countP_pos_iff.mpr hex) hpos

/-- Claim C10: a listed path that does not exist in the target directory
is counted as successfully deleted, never as an error; if every listed
path is absent the operation succeeds with all entries counted
deleted. -/
theorem C10_absent_is_success (k : String → PathKind)
    (rd rf : String → Except String Unit) (t : String) (files : List String)
    (h : ∀ f ∈ files, k (pathJoin t f) = PathKind.absent) :
    (delete_files_from_target k rd rf t files).res = .ok () ∧
    (delete_files_from_target k rd rf t files).deleted = files.length ∧
    (delete_files_from_target k rd rf t files).errors = 0 := by
  have hfail : ∀ f ∈ files, deleteFails k rd rf t f = false := by
    intro f hf
    unfold deleteFails
    rw [h f hf]
  have hcount : files.countP (fun f => deleteFails k rd rf t f) = 0 := by
    rw [List.countP_eq_zero]
    intro f hf
    simp [hfail f hf]
  have hlen : files.countP (fun f => ! deleteFails k rd rf t f) = files.length := by
    rw [List.countP_eq_length]
    intro f hf
    simp [hfail f hf]
  unfold delete_files_from_target
  rw [delete_loop_spec, hcount, hlen]
  by_cases hempty : files.isEmpty
  · rcases List.isEmpty_iff.mp hempty with rfl
    simp
  · simp [hempty]

/-- Closed witness for C10: two absent paths are both counted deleted
and the bulk deletion succeeds. -/
theorem C10_witness :
    (delete_files_from_target (fun _ => PathKind.absent) (fun _ => .ok ())
        (fun _ => .ok ()) "/tgt" ["a", "b"]).res = .ok () ∧
    (delete_files_from_target (fun _ => PathKind.absent) (fun _ => .ok ())
        (fun _ => .ok ()) "/tgt" ["a", "b"]).deleted = 2 ∧
    (delete_files_from_target (fun _ => PathKind.absent) (fun _ => .ok ())
        (fun _ => .ok ()) "/tgt" ["a", "b"]).errors = 0 := by
  simpa using
    C10_absent_is_success (fun _ => PathKind.absent) (fun _ => .ok ())
      (fun _ => .ok ()) "/tgt" ["a", "b"] (fun f _ => rfl)

/-! ## Theorems: recording (claim C2) -/

/-- Claim C2 counterexample: appending a BackupRecord whose
(kind, source, snapshot) key is already recorded is not a silent no-op;
the plain INSERT trips the UNIQUE constraint and
`record_successful_backup` returns an error. -/
theorem C2_counterexample :
    record_successful_backup [⟨"dataset", "pool/ds", "pool/ds@s1", "/tgt"⟩]
        "dataset" "pool/ds" "pool/ds@s1" "/tgt" =
      .error "Failed to record backup in database: UNIQUE constraint failed: backup_history.backup_type, backup_history.source_name, backup_history.snapshot_name" := by
  rfl

/-- Claim C2 as amended: appending a BackupRecord with an
already-recorded (kind, source, snapshot) key creates no duplicate row —
the insert is rejected — but it raises a uniqueness-constraint error
rather than succeeding as a no-op. -/
theorem C2_amended_unique_error (db : List BackupRecord)
    (backup_type source_name snapshot_name target_dir : String)
    (h : db.any
        (fun x => sameKey x ⟨backup_type, source_name, snapshot_name, target_dir⟩) = true) :
    record_successful_backup db backup_type source_name snapshot_name target_dir =
      .error "Failed to record backup in database: UNIQUE constraint failed: backup_history.backup_type, backup_history.source_name, backup_history.snapshot_name" ∧
    ∀ db2, record_successful_backup db backup_type source_name snapshot_name target_dir ≠
      .ok db2 := by
  unfold record_successful_backup insert_backup_history
  rw [if_pos h]
  exact ⟨rfl, fun db2 h2 => Except.noConfusion h2⟩

/-- Closed witness for the amended C2: a second record for the same
(restic, repo, abc) key — even with a different target directory — is
rejected with the constraint error. -/
theorem C2_witness :
    record_successful_backup [⟨"restic", "repo", "abc", "/t"⟩]
        "restic" "repo" "abc" "/t2" =
      .error "Failed to record backup in database: UNIQUE constraint failed: backup_history.backup_type, backup_history.source_name, backup_history.snapshot_name" :=
  (C2_amended_unique_error [⟨"restic", "repo", "abc", "/t"⟩]
    "restic" "repo" "abc" "/t2" (by decide)).1

/-! ## Theorems: snapshot-root resolution (claim C9) -/

theorem splitCharCore_not_mem (c : Char) (l : List Char) (h : c ∉ l) :
    splitCharCore c l = (l, []) := by
  induction l with
  | nil => rfl
  | cons x xs ih =>
    have hx : ¬ x = c := fun hxc => h (hxc ▸ List.mem_cons_self x xs)
    have hxs : c ∉ xs := fun hm => h (List.mem_cons_of_mem x hm)
    simp [splitCharCore, hx, ih hxs]

theorem splitCharCore_append (c : Char) (l₁ r : List Char) (h : c ∉ l₁) :
    splitCharCore c (l₁ ++ r) =
      (l₁ ++ (splitCharCore c r).1, (splitCharCore c r).2) := by
  induction l₁ with
  | nil => simp
  | cons x xs ih =>
    have hx : ¬ x = c := fun hxc => h (hxc ▸ List.mem_cons_self x xs)
    have hxs : c ∉ xs := fun hm => h (List.mem_cons_of_mem x hm)
    simp [splitCharCore, hx, ih hxs]

theorem splitChar_once (container label : String)
    (hc : '@' ∉ container.toList) (hl : '@' ∉ label.toList) :
    splitChar '@' (container ++ "@" ++ label) = [container, label] := by
  have hdata : (container ++ "@" ++ label).toList =
      container.toList ++ ('@' :: label.toList) := by
    show (container ++ "@" ++ label).data = container.data ++ ('@' :: label.data)
    simp [String.data_append]
  have hcore : splitCharCore '@' ('@' :: label.toList) = ([], [label.toList]) := by
    show (if '@' = '@' then
        ([], (splitCharCore '@' label.toList).1 :: (splitCharCore '@' label.toList).2)
      else
        ('@' :: (splitCharCore '@' label.toList).1, (splitCharCore '@' label.toList).2)) =
      ([], [label.toList])
    rw [if_pos rfl, splitCharCore_not_mem '@' label.toList hl]
  unfold splitChar
  rw [hdata, splitCharCore_append '@' container.toList _ hc, hcore]
  simp

theorem splitCharCore_snd_length (c : Char) (l : List Char) :
    (splitCharCore c l).2.length = l.count c := by
  induction l with
  | nil => rfl
  | cons x xs ih =>
    by_cases hx : x = c
    · subst hx
      simp [splitCharCore, List.count_cons, ih]
    · simp [splitCharCore, hx, List.count_cons, ih, Ne.symm hx]

/-- Claim C9: for a filesystem-snapshot identifier of the form
`<container>@<label>` (exactly one `@`), root resolution returns the
container's mount path joined with the fixed `.zfs/snapshot` convention
and the label; an identifier without exactly one `@` is an error. -/
theorem C9_resolve_root :
    (∀ (getMp : String → Except String String) (container label mp : String),
       '@' ∉ container.toList → '@' ∉ label.toList → getMp container = .ok mp →
       get_snapshot_mountpoint getMp (container ++ "@" ++ label) =
         .ok (mp ++ "/.zfs/snapshot/" ++ label)) ∧
    (∀ (getMp : String → Except String String) (s : String),
       s.toList.count '@' ≠ 1 →
       get_snapshot_mountpoint getMp s =
         .error ("Invalid snapshot name format: " ++ s)) := by
  constructor
  · intro getMp container label mp hc hl hmp
    unfold get_snapshot_mountpoint
    rw [splitChar_once container label hc hl]
    show (match getMp container with
      | .error e => (.error e : Except String String)
      | .ok mountpoint => .ok (mountpoint ++ "/.zfs/snapshot/" ++ label)) =
      .ok (mp ++ "/.zfs/snapshot/" ++ label)
    rw [hmp]
  · intro getMp s hcount
    have hlen : (splitChar '@' s).length = s.toList.count '@' + 1 := by
      unfold splitChar
      simp [splitCharCore_snd_length]
    unfold get_snapshot_mountpoint
    cases hsp : splitChar '@' s with
    | nil => rfl
    | cons a t =>
      cases t with
      | nil => rfl
      | cons b t2 =>
        cases t2 with
        | nil =>
          exfalso
          rw [hsp] at hlen
          simp at hlen
          exact hcount hlen
        | cons d t3 => rfl

/-- Mountpoint oracle used by the C9 witness. -/
def mpOracle : String → Except String String := fun _ => .ok "/mnt/pool/ds"

/-- Closed witness for C9: `pool/ds@2024-01-01` resolves to
`/mnt/pool/ds/.zfs/snapshot/2024-01-01`, and an identifier with no `@`
is rejected. -/
theorem C9_witness :
    get_snapshot_mountpoint mpOracle ("pool/ds" ++ "@" ++ "2024-01-01") =
      .ok ("/mnt/pool/ds" ++ "/.zfs/snapshot/" ++ "2024-01-01") ∧
    get_snapshot_mountpoint mpOracle "no-at-sign" =
      .error ("Invalid snapshot name format: " ++ "no-at-sign") :=
  ⟨C9_resolve_root.1 mpOracle "pool/ds" "2024-01-01" "/mnt/pool/ds"
      (by decide) (by decide) rfl,
   C9_resolve_root.2 mpOracle "no-at-sign" (by decide)⟩

/-! ## Theorems: baseline validation walk (claim C5) -/

/-- Claim C5: the baseline search walks the recorded snapshots
most-recent-first, checks existence of each in that order, continues
past explicit non-existence and past failing checks, returns the first
identifier confirmed to exist, and returns none when the walk exhausts
all records.  The second component of the result is the ordered trace of
existence checks that were invoked. -/
theorem C5_validation_walk (snapExists : String → Except String Bool) :
    (∀ (pre : List (String × String)) (s t : String) (post : List (String × String)),
       (∀ p ∈ pre, snapExists p.1 ≠ .ok true) → snapExists s = .ok true →
       get_last_backed_up_snapshot snapExists (pre ++ (s, t) :: post) =
         (some s, pre.map Prod.fst ++ [s])) ∧
    (∀ rows : List (String × String),
       (∀ p ∈ rows, snapExists p.1 ≠ .ok true) →
       get_last_backed_up_snapshot snapExists rows = (none, rows.map Prod.fst)) := by
  constructor
  · intro pre s t post
    induction pre with
    | nil =>
      intro _ hs
      simp [get_last_backed_up_snapshot, hs]
    | cons p rest ih =>
      intro hpre hs
      obtain ⟨ps, pt⟩ := p
      have hp : snapExists ps ≠ .ok true := hpre (ps, pt) (List.mem_cons_self _ _)
      have hrest : ∀ q ∈ rest, snapExists q.1 ≠ .ok true :=
        fun q hq => hpre q (List.mem_cons_of_mem _ hq)
      cases he : snapExists ps with
      | ok b =>
        cases b with
        | true => exact absurd he hp
        | false => simp [get_last_backed_up_snapshot, he, ih hrest hs]
      | error e => simp [get_last_backed_up_snapshot, he, ih hrest hs]
  · intro rows
    induction rows with
    | nil => intro _; rfl
    | cons p rest ih =>
      intro hall
      obtain ⟨ps, pt⟩ := p
      have hp : snapExists ps ≠ .ok true := hall (ps, pt) (List.mem_cons_self _ _)
      have hrest : ∀ q ∈ rest, snapExists q.1 ≠ .ok true :=
        fun q hq => hall q (List.mem_cons_of_mem _ hq)
      cases he : snapExists ps with
      | ok b =>
        cases b with
        | true => exact absurd he hp
        | false => simp [get_last_backed_up_snapshot, he, ih hrest]
      | error e => simp [get_last_backed_up_snapshot, he, ih hrest]

/-- Existence oracle used by the C5 witness: S1 exists, the S2 check
itself fails, everything else is reported non-existent. -/
def c5Oracle : String → Except String Bool := fun s =>
  if s = "S1" then .ok true
  else if s = "S2" then .error "probe failed"
  else .ok false

/-- Closed witness for C5: with history [S3, S2, S1] where S3 is
non-existent and the S2 check errors, the baseline is S1 and the checks
were invoked in the order S3, S2, S1. -/
theorem C5_witness :
    get_last_backed_up_snapshot c5Oracle [("S3", "t3"), ("S2", "t2"), ("S1", "t1")] =
      (some "S1", ["S3", "S2", "S1"]) := by
  have h := (C5_validation_walk c5Oracle).1 [("S3", "t3"), ("S2", "t2")] "S1" "t1" []
    (by
      intro p hp
      rcases List.mem_cons.mp hp with rfl | hp2
      · simp [c5Oracle]
      · rcases List.mem_cons.mp hp2 with rfl | hp3
        · simp [c5Oracle]
        · cases hp3)
    (by simp [c5Oracle])
  simpa using h

/-! ## Theorems: plan partitioning (claim C4) -/

/-- Claim C4 counterexample: for the claim's change list
[("+","/a"), ("M","/b"), ("-","/c"), ("R","/d -> /e")] with mount root
/mnt, the code does not produce syncFiles = {a, b, e}: none of the paths
start with the mount root, so the prefix strip fails and the absolute
paths pass through unchanged. -/
theorem C4_counterexample :
    extract_files_for_sync ["+\t/a", "M\t/b", "-\t/c", "R\t/d -> /e"] "/mnt" =
      ["/a", "/b", "/e"] ∧
    extract_files_for_deletion ["+\t/a", "M\t/b", "-\t/c", "R\t/d -> /e"] "/mnt" =
      ["/c"] ∧
    ¬ ("a" ∈ extract_files_for_sync ["+\t/a", "M\t/b", "-\t/c", "R\t/d -> /e"] "/mnt") := by
  decide

/-- Per-entry sync classification following the spec's partition
wording, amended: Added/Modified paths and rename destinations go to
syncFiles after mountpoint normalization; an entry is discarded when its
normalized path is empty or ends in a slash; a path that does not start
with the mount root followed by a slash is passed through unchanged. -/
def classify_sync (mountpoint change : String) : Option String :=
  match parse_zfs_diff_line change with
  | some (change_type, file_path) =>
    if change_type = '+' ∨ change_type = 'M' then
      if strip_mountpoint file_path mountpoint ≠ "" ∧
          ¬ endsWithChar '/' (strip_mountpoint file_path mountpoint) then
        some (strip_mountpoint file_path mountpoint)
      else none
    else if change_type = 'R' then
      match renameDest file_path with
      | some new_path =>
        if strip_mountpoint new_path mountpoint ≠ "" ∧
            ¬ endsWithChar '/' (strip_mountpoint new_path mountpoint) then
          some (strip_mountpoint new_path mountpoint)
        else none
      | none => none
    else none
  | none => none

/-- Per-entry deletion classification following the spec's partition
wording, amended likewise: Removed paths go to deletions after
normalization, discarded only when the normalized path is empty. -/
def classify_delete (mountpoint change : String) : Option String :=
  match parse_zfs_diff_line change with
  | some (change_type, file_path) =>
    if change_type = '-' then
      if strip_mountpoint file_path mountpoint ≠ "" then
        some (strip_mountpoint file_path mountpoint)
      else none
    else none
  | none => none

/-- Claim C4 as amended: the incremental plan partitions every change
list entry-by-entry — Added/Modified paths and rename destinations to
syncFiles, Removed paths to deletions — where normalization strips the
mount-root prefix only when the path actually carries it (otherwise the
path passes through unchanged), sync entries reducing to the empty path
or ending in a slash are discarded, and deletion entries reducing to the
empty path are discarded.  For the claim's example shape with paths that
do carry the /mnt prefix, syncFiles = [a, b, e] and deletions = [c]. -/
theorem C4_amended_partition :
    (∀ (changes : List String) (mountpoint : String),
       extract_files_for_sync changes mountpoint =
         changes.filterMap (classify_sync mountpoint)) ∧
    (∀ (changes : List String) (mountpoint : String),
       extract_files_for_deletion changes mountpoint =
         changes.filterMap (classify_delete mountpoint)) ∧
    extract_files_for_sync
        ["+\t/mnt/a", "M\t/mnt/b", "-\t/mnt/c", "R\t/mnt/d -> /mnt/e"] "/mnt" =
      ["a", "b", "e"] ∧
    extract_files_for_deletion
        ["+\t/mnt/a", "M\t/mnt/b", "-\t/mnt/c", "R\t/mnt/d -> /mnt/e"] "/mnt" =
      ["c"] := by
  refine ⟨?_, ?_, by decide, by decide⟩
  · intro changes mountpoint
    induction changes with
    | nil => rfl
    | cons c rest ih =>
      cases hp : parse_zfs_diff_line c with
      | none =>
        simp only [extract_files_for_sync, classify_sync, List.filterMap_cons, hp, ih]
      | some pr =>
        obtain ⟨ct, fp⟩ := pr
        simp only [extract_files_for_sync, classify_sync, List.filterMap_cons, hp, ih]
        by_cases h1 : ct = '+' ∨ ct = 'M'
        · simp only [h1, if_true]
          split_ifs with h2 <;> rfl
        · by_cases hR : ct = 'R'
          · simp only [h1, if_false, hR, if_true]
            cases hd : renameDest fp with
            | none => rfl
            | some np =>
              simp only [hd]
              split_ifs with h2 <;> rfl
          · simp only [h1, if_false, hR]
  · intro changes mountpoint
    induction changes with
    | nil => rfl
    | cons c rest ih =>
      cases hp : parse_zfs_diff_line c with
      | none =>
        simp only [extract_files_for_deletion, classify_delete, List.filterMap_cons, hp, ih]
      | some pr =>
        obtain ⟨ct, fp⟩ := pr
        simp only [extract_files_for_deletion, classify_delete, List.filterMap_cons, hp, ih]
        by_cases h1 : ct = '-'
        · simp only [h1, if_true]
          split_ifs with h2 <;> rfl
        · simp only [h1, if_false]

/-! ## Theorems: mode selection (claim C3) -/

/-- Claim C3: mode selection is total and exhaustive for both backends.
Once the target and readiness preconditions pass: if the backend reports
no newest snapshot the run fails with the no-snapshots error; otherwise
the selected mode is exactly `determine_mode baseline head` — Full when
the baseline is none, Skip when the baseline equals head, Incremental
otherwise — and a Skip leaves the history store untouched and
succeeds. -/
theorem C3_mode_selection :
    (∀ (w : DatasetWorld) (cfg : DatasetConfig) (db : List BackupRecord),
       w.targetCheck = .ok () → w.mountedCheck = .ok true →
       ((w.latest = .ok none →
          (backup_dataset w cfg db).result =
            .error ("No snapshots found for dataset '" ++ cfg.name ++ "'")) ∧
        (∀ head, w.latest = .ok (some head) →
          (backup_dataset w cfg db).mode =
            some (determine_mode (dataset_last w) head)) ∧
        (∀ head, w.latest = .ok (some head) → dataset_last w = some head →
          (backup_dataset w cfg db).result = .ok () ∧
          (backup_dataset w cfg db).db = db))) ∧
    (∀ (w : ResticWorld) (cfg : ResticConfig) (db : List BackupRecord),
       w.targetCheck = .ok () →
       ((w.latest = .ok none →
          (backup_restic w cfg db).result =
            .error ("No snapshots found in restic repository '" ++
              cfg.repository ++ "'")) ∧
        (∀ head, w.latest = .ok (some head) →
          (backup_restic w cfg db).mode =
            some (determine_mode (restic_last w) head)) ∧
        (∀ head, w.latest = .ok (some head) → restic_last w = some head →
          (backup_restic w cfg db).result = .ok () ∧
          (backup_restic w cfg db).db = db))) := by
  constructor
  · intro w cfg db ht hm
    refine ⟨?_, ?_, ?_⟩
    · intro hl
      simp only [backup_dataset, ht, hm, hl]
    · intro head hl
      cases hb : dataset_last w with
      | none =>
        simp only [backup_dataset, ht, hm, hl, hb, determine_mode]
        repeat' split
        all_goals rfl
      | some last =>
        simp only [backup_dataset, ht, hm, hl, hb, determine_mode]
        split_ifs with he
        · rfl
        · repeat' split
          all_goals rfl
    · intro head hl hb
      simp only [backup_dataset, ht, hm, hl, hb, if_pos rfl]
      exact ⟨rfl, rfl⟩
  · intro w cfg db ht
    refine ⟨?_, ?_, ?_⟩
    · intro hl
      simp only [backup_restic, ht, hl]
    · intro head hl
      cases hb : restic_last w with
      | none =>
        simp only [backup_restic, ht, hl, hb, determine_mode]
        repeat' split
        all_goals rfl
      | some last =>
        simp only [backup_restic, ht, hl, hb, determine_mode]
        split_ifs with he
        · rfl
        · repeat' split
          all_goals rfl
    · intro head hl hb
      simp only [backup_restic, ht, hl, hb, if_pos rfl]
      exact ⟨rfl, rfl⟩

/-- Concrete dataset world for the C3 witness: history [ds@s1] whose
snapshot still exists, head ds@s1. -/
def c3World : DatasetWorld :=
  ⟨.ok (), .ok true, .ok [("ds@s1", "t1")], fun _ => .ok true, .ok (some "ds@s1"),
   fun _ => .ok "/m", fun _ _ => .ok [], fun _ _ => .ok (), fun _ _ _ => .ok (),
   fun _ => .absent, fun _ => .ok (), fun _ => .ok ()⟩

/-- Closed witness for C3: with baseline = head = ds@s1 the selected
mode is Skip and no record is appended. -/
theorem C3_witness :
    (backup_dataset c3World ⟨"ds", "/t"⟩ []).mode =
      some (determine_mode (dataset_last c3World) "ds@s1") ∧
    (backup_dataset c3World ⟨"ds", "/t"⟩ []).db = ([] : List BackupRecord) := by
  have h := C3_mode_selection.1 c3World ⟨"ds", "/t"⟩ [] rfl rfl
  exact ⟨h.2.1 "ds@s1" rfl, (h.2.2 "ds@s1" rfl rfl).2⟩

/-! ## Theorems: delete-before-sync ordering (claim C6) -/

/-- Whether an event is a transfer (sync) operation. -/
def eventIsSync : Event → Bool
  | .rsyncFull _ _ => true
  | .rsyncList _ _ _ => true
  | _ => false

/-- Whether an event is a delete operation. -/
def eventIsDelete : Event → Bool
  | .deletePath _ => true
  | _ => false

/-- Executable delete-before-sync ordering: from the first sync event
onward, no delete event occurs. -/
def deletesBeforeSyncs (es : List Event) : Bool :=
  (es.dropWhile (fun e => ! eventIsSync e)).all (fun e => ! eventIsDelete e)

theorem dbs_nodelete (es : List Event)
    (h : ∀ e ∈ es, eventIsDelete e = false) : deletesBeforeSyncs es = true := by
  unfold deletesBeforeSyncs
  rw [List.all_eq_true]
  intro e he
  have hmem : e ∈ es := (List.dropWhile_sublist _).subset he
  simp [h e hmem]

theorem dbs_nosync (es : List Event)
    (h : ∀ e ∈ es, eventIsSync e = false) : deletesBeforeSyncs es = true := by
  unfold deletesBeforeSyncs
  have hd : es.dropWhile (fun e => ! eventIsSync e) = [] := by
    rw [List.dropWhile_eq_nil_iff]
    intro e he
    simp [h e he]
  rw [hd]
  rfl

theorem dbs_nosync_left (a b : List Event) :
    (∀ e ∈ a, eventIsSync e = false) →
    deletesBeforeSyncs (a ++ b) = deletesBeforeSyncs b := by
  induction a with
  | nil => intro _; rfl
  | cons x xs ih =>
    intro ha
    have hx := ha x (List.mem_cons_self _ _)
    unfold deletesBeforeSyncs
    rw [List.cons_append, List.dropWhile_cons]
    simp only [hx, Bool.not_false, if_true]
    exact ih (fun e he => ha e (List.mem_cons_of_mem _ he))

theorem dbs_split (a b : List Event) (ha : ∀ e ∈ a, eventIsSync e = false)
    (hb : ∀ e ∈ b, eventIsDelete e = false) :
    deletesBeforeSyncs (a ++ b) = true := by
  rw [dbs_nosync_left a b ha]
  exact dbs_nodelete b hb

/-! Shape facts about the event segments each run is built from. -/

theorem dataset_ev0_shape (w : DatasetWorld) :
    ∀ e ∈ dataset_ev0 w, ∃ s, e = Event.checkExists s := by
  intro e he
  unfold dataset_ev0 at he
  cases hq : w.dbQuery with
  | error m => simp [hq] at he
  | ok rows =>
    simp only [hq] at he
    rcases List.mem_map.mp he with ⟨s, _, rfl⟩
    exact ⟨s, rfl⟩

theorem restic_ev0_shape (w : ResticWorld) :
    ∀ e ∈ restic_ev0 w, ∃ s, e = Event.checkExists s := by
  intro e he
  unfold restic_ev0 at he
  cases hq : w.dbQuery with
  | error m => simp [hq] at he
  | ok rows =>
    simp only [hq] at he
    rcases List.mem_map.mp he with ⟨s, _, rfl⟩
    exact ⟨s, rfl⟩

theorem dataset_ev0_nosync (w : DatasetWorld) :
    ∀ e ∈ dataset_ev0 w, eventIsSync e = false := by
  intro e he
  obtain ⟨s, rfl⟩ := dataset_ev0_shape w e he
  rfl

theorem map_deletePath_nosync (l : List String) :
    ∀ e ∈ l.map Event.deletePath, eventIsSync e = false := by
  intro e he
  rcases List.mem_map.mp he with ⟨p, _, rfl⟩
  rfl

theorem run_rsync_events_shape
    (rf : String → String → List String → Except String Unit)
    (sp td : String) (files : List String) :
    (run_rsync_with_file_list rf sp td files).2 = [] ∨
    (run_rsync_with_file_list rf sp td files).2 =
      [Event.rsyncList sp td (files.map stripLeadSlash)] := by
  unfold run_rsync_with_file_list
  by_cases h : files.isEmpty
  · simp [h]
  · simp only [h, if_false]
    cases rf sp td (files.map stripLeadSlash) <;> simp

theorem run_rsync_nodelete
    (rf : String → String → List String → Except String Unit)
    (sp td : String) (files : List String) :
    ∀ e ∈ (run_rsync_with_file_list rf sp td files).2, eventIsDelete e = false := by
  intro e he
  rcases run_rsync_events_shape rf sp td files with h | h <;> rw [h] at he
  · cases he
  · obtain rfl := List.mem_singleton.mp he
    rfl

theorem mount_events_shape (sp : String → String → Except String Unit)
    (rd : String → String → Bool) (sid mp : String) :
    (mount_restic_snapshot sp rd sid mp).2 = [] ∨
    (mount_restic_snapshot sp rd sid mp).2 = [Event.mountAcquired mp] ∨
    (mount_restic_snapshot sp rd sid mp).2 = [Event.mountKilled mp] := by
  unfold mount_restic_snapshot
  cases sp sid mp with
  | error e => exact Or.inl rfl
  | ok u =>
    by_cases hr : rd sid mp
    · simp [hr]
    · simp [hr]

theorem mount_events_nodelete (sp : String → String → Except String Unit)
    (rd : String → String → Bool) (sid mp : String) :
    ∀ e ∈ (mount_restic_snapshot sp rd sid mp).2, eventIsDelete e = false := by
  intro e he
  rcases mount_events_shape sp rd sid mp with h | h | h <;> rw [h] at he
  · cases he
  · obtain rfl := List.mem_singleton.mp he
    rfl
  · obtain rfl := List.mem_singleton.mp he
    rfl

theorem restic_ev0_nodelete (w : ResticWorld) :
    ∀ e ∈ restic_ev0 w, eventIsDelete e = false := by
  intro e he
  obtain ⟨s, rfl⟩ := restic_ev0_shape w e he
  rfl

theorem restic_sync_nodelete (w : ResticWorld) (cfg : ResticConfig)
    (changes : List String × List String) :
    ∀ e ∈ (restic_sync_step w cfg changes).2, eventIsDelete e = false := by
  intro e he
  unfold restic_sync_step at he
  by_cases h : changes.1.isEmpty
  · simp [h] at he
  · simp only [h, if_false] at he
    exact run_rsync_nodelete w.rsyncFiles "/tmp/restic-mount-new/" cfg.target_dir
      changes.1 e he

/-- No restic run ever emits a delete event (the source's restic
incremental arm leaves deletions unhandled). -/
theorem backup_restic_no_delete (w : ResticWorld) (cfg : ResticConfig)
    (db : List BackupRecord) :
    ∀ e ∈ (backup_restic w cfg db).events, eventIsDelete e = false := by
  unfold backup_restic
  repeat' split
  all_goals dsimp only
  all_goals repeat' (refine List.forall_mem_append.mpr ⟨?_, ?_⟩)
  all_goals
    first
    | exact restic_ev0_nodelete w
    | exact mount_events_nodelete w.mountSpawn w.mountReady _ _
    | exact restic_sync_nodelete w cfg _
    | (intro e he; fin_cases he <;> rfl)

/-- Claim C6: in every run of either backend, all delete operations are
issued and completed before any sync operation begins; delete and sync
operations are never interleaved. -/
theorem C6_delete_before_sync :
    (∀ (w : DatasetWorld) (cfg : DatasetConfig) (db : List BackupRecord),
       deletesBeforeSyncs (backup_dataset w cfg db).events = true) ∧
    (∀ (w : ResticWorld) (cfg : ResticConfig) (db : List BackupRecord),
       deletesBeforeSyncs (backup_restic w cfg db).events = true) := by
  constructor
  · intro w cfg db
    unfold backup_dataset
    repeat' split
    all_goals dsimp only
    all_goals
      first
      | rfl
      | exact dbs_nosync _ (dataset_ev0_nosync w)
      | (refine dbs_nosync _ ?_
         intro e he
         rcases List.mem_append.mp he with he | he
         · exact dataset_ev0_nosync w e he
         · exact map_deletePath_nosync _ e he)
      | (refine dbs_split _ _ (dataset_ev0_nosync w) ?_
         intro e he
         rcases List.mem_cons.mp he with rfl | he
         · rfl
         · first
           | (obtain rfl := List.mem_singleton.mp he; rfl)
           | exact absurd he (List.not_mem_nil e))
      | (refine dbs_split _ _ ?_ (run_rsync_nodelete _ _ _ _)
         intro e he
         rcases List.mem_append.mp he with he | he
         · exact dataset_ev0_nosync w e he
         · exact map_deletePath_nosync _ e he)
  · intro w cfg db
    exact dbs_nodelete _ (backup_restic_no_delete w cfg db)

/-! ## Theorems: mount-guard release (claim C8) -/

theorem restic_ev0_no_acquired (w : ResticWorld) (mp : String) :
    Event.mountAcquired mp ∉ restic_ev0 w := by
  intro hmem
  obtain ⟨s, hs⟩ := restic_ev0_shape w _ hmem
  cases hs

theorem restic_ev0_count_unmount (w : ResticWorld) (mp : String) :
    (restic_ev0 w).count (Event.unmount mp) = 0 := by
  rw [List.count_eq_zero]
  intro hmem
  obtain ⟨s, hs⟩ := restic_ev0_shape w _ hmem
  cases hs

theorem mount_ok_events (sp : String → String → Except String Unit)
    (rd : String → String → Bool) (sid mp : String) (u : Unit)
    (h : (mount_restic_snapshot sp rd sid mp).1 = .ok u) :
    (mount_restic_snapshot sp rd sid mp).2 = [Event.mountAcquired mp] := by
  unfold mount_restic_snapshot at h ⊢
  revert h
  cases sp sid mp with
  | error m => intro h; simp at h
  | ok v =>
    by_cases hr : rd sid mp
    · intro _; simp [hr]
    · intro h; simp [hr] at h

theorem mount_error_events (sp : String → String → Except String Unit)
    (rd : String → String → Bool) (sid mp : String) (e : String)
    (h : (mount_restic_snapshot sp rd sid mp).1 = .error e) :
    (mount_restic_snapshot sp rd sid mp).2 = [] ∨
    (mount_restic_snapshot sp rd sid mp).2 = [Event.mountKilled mp] := by
  unfold mount_restic_snapshot at h ⊢
  revert h
  cases sp sid mp with
  | error m => intro _; exact Or.inl rfl
  | ok v =>
    by_cases hr : rd sid mp
    · intro h; simp [hr] at h
    · intro _; simp [hr]

theorem restic_sync_events_shape (w : ResticWorld) (cfg : ResticConfig)
    (changes : List String × List String) :
    (restic_sync_step w cfg changes).2 = [] ∨
    ∃ fs, (restic_sync_step w cfg changes).2 =
      [Event.rsyncList "/tmp/restic-mount-new/" cfg.target_dir fs] := by
  unfold restic_sync_step
  by_cases h : changes.1.isEmpty
  · simp [h]
  · simp only [h, if_false]
    rcases run_rsync_events_shape w.rsyncFiles "/tmp/restic-mount-new/" cfg.target_dir
        changes.1 with h2 | h2
    · exact Or.inl h2
    · exact Or.inr ⟨_, h2⟩

/-- Claim C8: in every restic reconciliation in which a snapshot mount
was acquired, the unmount action for that mount point is issued exactly
once — on every exit path from the scope holding the guard, including
when the transfer step fails after the mount was acquired. -/
theorem C8_unmount_exactly_once (w : ResticWorld) (cfg : ResticConfig)
    (db : List BackupRecord) (mp : String)
    (h : Event.mountAcquired mp ∈ (backup_restic w cfg db).events) :
    (backup_restic w cfg db).events.count (Event.unmount mp) = 1 := by
  unfold backup_restic at h ⊢
  cases ht : w.targetCheck with
  | error e => simp only [ht] at h; simp at h
  | ok tu =>
  simp only [ht] at h ⊢
  cases hl : w.latest with
  | error e =>
    simp only [hl] at h
    exact absurd h (restic_ev0_no_acquired w mp)
  | ok lopt =>
  simp only [hl] at h ⊢
  cases lopt with
  | none => exact absurd h (restic_ev0_no_acquired w mp)
  | some head =>
  cases hb : restic_last w with
  | none =>
    simp only [hb] at h ⊢
    cases hc : w.createDir "/tmp/restic-mount-latest" with
    | error e =>
      simp only [hc] at h
      exact absurd h (restic_ev0_no_acquired w mp)
    | ok cu =>
    simp only [hc] at h ⊢
    cases hm : (mount_restic_snapshot w.mountSpawn w.mountReady head
        "/tmp/restic-mount-latest").1 with
    | error e =>
      simp only [hm] at h
      rcases List.mem_append.mp h with h1 | h1
      · exact absurd h1 (restic_ev0_no_acquired w mp)
      · rcases mount_error_events _ _ _ _ e hm with he2 | he2 <;> rw [he2] at h1
        · cases h1
        · obtain h3 := List.mem_singleton.mp h1; cases h3
    | ok mu =>
      simp only [hm] at h ⊢
      rw [mount_ok_events w.mountSpawn w.mountReady head "/tmp/restic-mount-latest" mu hm]
        at h ⊢
      cases hr : w.rsync "/tmp/restic-mount-latest/" cfg.target_dir with
      | error e =>
        simp only [hr] at h ⊢
        simp only [List.mem_append, List.mem_cons, List.not_mem_nil, or_false,
          false_or, reduceCtorEq, Event.mountAcquired.injEq, restic_ev0_no_acquired w mp] at h
        subst h
        simp [List.count_append, List.count_cons, restic_ev0_count_unmount]
      | ok ru =>
        simp only [hr] at h ⊢
        cases hrec : record_successful_backup db "restic" cfg.repository head
            cfg.target_dir with
        | error e =>
          simp only [hrec] at h ⊢
          simp only [List.mem_append, List.mem_cons, List.not_mem_nil, or_false,
            false_or, reduceCtorEq, Event.mountAcquired.injEq, restic_ev0_no_acquired w mp] at h
          subst h
          simp [List.count_append, List.count_cons, restic_ev0_count_unmount]
        | ok db2 =>
          simp only [hrec] at h ⊢
          simp only [List.mem_append, List.mem_cons, List.not_mem_nil, or_false,
            false_or, reduceCtorEq, Event.mountAcquired.injEq, restic_ev0_no_acquired w mp] at h
          subst h
          simp [List.count_append, List.count_cons, restic_ev0_count_unmount]
  | some last_snap =>
    simp only [hb] at h ⊢
    by_cases hsk : last_snap = head
    · rw [if_pos hsk] at h ⊢
      exact absurd h (restic_ev0_no_acquired w mp)
    · rw [if_neg hsk] at h ⊢
      cases hc1 : w.createDir "/tmp/restic-mount-old" with
      | error e =>
        simp only [hc1] at h
        exact absurd h (restic_ev0_no_acquired w mp)
      | ok c1u =>
      simp only [hc1] at h ⊢
      cases hc2 : w.createDir "/tmp/restic-mount-new" with
      | error e =>
        simp only [hc2] at h
        exact absurd h (restic_ev0_no_acquired w mp)
      | ok c2u =>
      simp only [hc2] at h ⊢
      cases hmo : (mount_restic_snapshot w.mountSpawn w.mountReady last_snap
          "/tmp/restic-mount-old").1 with
      | error e =>
        simp only [hmo] at h
        rcases List.mem_append.mp h with h1 | h1
        · exact absurd h1 (restic_ev0_no_acquired w mp)
        · rcases mount_error_events _ _ _ _ e hmo with he2 | he2 <;> rw [he2] at h1
          · cases h1
          · obtain h3 := List.mem_singleton.mp h1; cases h3
      | ok mou =>
      simp only [hmo] at h ⊢
      rw [mount_ok_events w.mountSpawn w.mountReady last_snap "/tmp/restic-mount-old"
        mou hmo] at h ⊢
      cases hmn : (mount_restic_snapshot w.mountSpawn w.mountReady head
          "/tmp/restic-mount-new").1 with
      | error e =>
        simp only [hmn] at h ⊢
        rcases mount_error_events _ _ _ _ e hmn with he2 | he2 <;> rw [he2] at h ⊢
        · simp only [List.mem_append, List.mem_cons, List.not_mem_nil, or_false,
            false_or, reduceCtorEq, Event.mountAcquired.injEq, restic_ev0_no_acquired w mp] at h
          subst h
          simp [List.count_append, List.count_cons, restic_ev0_count_unmount]
        · simp only [List.mem_append, List.mem_cons, List.not_mem_nil, or_false,
            false_or, reduceCtorEq, Event.mountAcquired.injEq, restic_ev0_no_acquired w mp] at h
          subst h
          simp [List.count_append, List.count_cons, restic_ev0_count_unmount]
      | ok mnu =>
      simp only [hmn] at h ⊢
      rw [mount_ok_events w.mountSpawn w.mountReady head "/tmp/restic-mount-new"
        mnu hmn] at h ⊢
      cases hd : w.resticDiff with
      | error e =>
        simp only [hd] at h ⊢
        simp only [List.mem_append, List.mem_cons, List.not_mem_nil, or_false,
          false_or, reduceCtorEq, Event.mountAcquired.injEq, restic_ev0_no_acquired w mp] at h
        rcases h with rfl | rfl <;>
          simp [List.count_append, List.count_cons, restic_ev0_count_unmount]
      | ok changes =>
        simp only [hd] at h ⊢
        cases hs : (restic_sync_step w cfg changes).1 with
        | error e =>
          simp only [hs] at h ⊢
          rcases restic_sync_events_shape w cfg changes with he2 | ⟨fs, he2⟩ <;>
            rw [he2] at h ⊢ <;>
            simp only [List.mem_append, List.mem_cons, List.not_mem_nil, or_false,
              false_or, reduceCtorEq, Event.mountAcquired.injEq, restic_ev0_no_acquired w mp] at h <;>
            rcases h with rfl | rfl <;>
            simp [List.count_append, List.count_cons, restic_ev0_count_unmount]
        | ok su =>
          simp only [hs] at h ⊢
          cases hrec : record_successful_backup db "restic" cfg.repository head
              cfg.target_dir with
          | error e =>
            simp only [hrec] at h ⊢
            rcases restic_sync_events_shape w cfg changes with he2 | ⟨fs, he2⟩ <;>
              rw [he2] at h ⊢ <;>
              simp only [List.mem_append, List.mem_cons, List.not_mem_nil, or_false,
                false_or, reduceCtorEq, Event.mountAcquired.injEq, restic_ev0_no_acquired w mp] at h <;>
              rcases h with rfl | rfl <;>
              simp [List.count_append, List.count_cons, restic_ev0_count_unmount]
          | ok db2 =>
            simp only [hrec] at h ⊢
            rcases restic_sync_events_shape w cfg changes with he2 | ⟨fs, he2⟩ <;>
              rw [he2] at h ⊢ <;>
              simp only [List.mem_append, List.mem_cons, List.not_mem_nil, or_false,
                false_or, reduceCtorEq, Event.mountAcquired.injEq, restic_ev0_no_acquired w mp] at h <;>
              rcases h with rfl | rfl <;>
              simp [List.count_append, List.count_cons, restic_ev0_count_unmount]

/-- Concrete restic world for the C8 witness: empty history (full copy
path), mount spawns and becomes ready, and the rsync transfer then
fails. -/
def c8World : ResticWorld :=
  ⟨.ok (), .ok [], fun _ => .ok false, .ok (some "abc"), fun _ => .ok (),
   fun _ _ => .ok (), fun _ _ => true, fun _ _ => .error "io failure",
   fun _ _ _ => .ok (), .ok ([], [])⟩

/-- Closed witness for C8: the transfer fails after the mount was
acquired, and the unmount was still issued exactly once. -/
theorem C8_witness :
    (backup_restic c8World ⟨"repo", "/t"⟩ []).events.count
      (Event.unmount "/tmp/restic-mount-latest") = 1 :=
  C8_unmount_exactly_once c8World ⟨"repo", "/t"⟩ [] "/tmp/restic-mount-latest"
    (by decide)

/-! ## Theorems: recording after a successful apply (claim C1) -/

/-- Concrete dataset world for C1: baseline ds1@s1 (still exists), head
ds1@s2, diff reports one modified file, every transfer call succeeds. -/
def c1World : DatasetWorld :=
  ⟨.ok (), .ok true, .ok [("ds1@s1", "t1")], fun _ => .ok true, .ok (some "ds1@s2"),
   fun _ => .ok "/m", fun _ _ => .ok ["M\t/m/x"], fun _ _ => .ok (),
   fun _ _ _ => .ok (), fun _ => .absent, fun _ => .ok (), fun _ => .ok ()⟩

/-- Claim C1 (code bug): a dataset incremental reconciliation that
applies its transfer plan without any error — baseline ds1@s1, head
ds1@s2, one modified file — completes with Ok and the incremental mode,
yet appends no BackupRecord and emits no record event; the source even
prints "Incremental backup recorded successfully" on this very path
while never calling `record_successful_backup` (the full path and both
restic paths do record, and a skip does not). -/
theorem C1_incremental_never_records :
    (backup_dataset c1World ⟨"ds1", "/t"⟩ []).result = .ok () ∧
    (backup_dataset c1World ⟨"ds1", "/t"⟩ []).mode =
      some (.incremental "ds1@s1" "ds1@s2") ∧
    (backup_dataset c1World ⟨"ds1", "/t"⟩ []).db = ([] : List BackupRecord) ∧
    (backup_dataset c1World ⟨"ds1", "/t"⟩ []).events =
      [Event.checkExists "ds1@s1",
       Event.rsyncList "/m/.zfs/snapshot/s2/" "/t" ["x"]] :=
  ⟨rfl, rfl, rfl, rfl⟩

end FileBackup
